import Mathlib

/-!
Shallow embedding of src/inspire_schemas/api.py (class LiteratureBuilder and
its helpers) and proofs about the spec claims.

Conventions of the embedding:
- Python dicts with a fixed key vocabulary become Lean structures whose fields
  are Options (a key is absent iff the field is none).
- Python lists become Lean lists; dict containers that are appended to become
  Option (List _) fields, with the ensure-then-append pattern of the source
  mirrored by the ensureField helper.
- Python strings become Lean String / List Char; the regular expressions of
  the source are hand-compiled into character-list matchers.  The character
  class \w of the Python regex module is modelled as the ASCII word
  characters [A-Za-z0-9_], and \d as the ASCII digits, which is exact for
  byte strings and for the ASCII inputs the claims quantify over.
-/

namespace InspireSchemas

/-- Python whitespace, the character set matched by \s and stripped by
str.strip: space, tab, newline, carriage return, vertical tab, form feed. -/
def pySpace (c : Char) : Bool :=
  c == ' ' || c == '\t' || c == '\n' || c == '\r' || c == '\x0b' || c == '\x0c'

/-- Python str.strip on a character list: drop leading and trailing
whitespace. -/
def pyStripList (l : List Char) : List Char :=
  ((l.dropWhile pySpace).reverse.dropWhile pySpace).reverse

/-- Python str.strip. -/
def pyStrip (s : String) : String :=
  String.mk (pyStripList s.toList)

/-- Value of a nonempty all-digit character list, reading base 10. -/
def digitsToNat (ds : List Char) : Option Nat :=
  if ds.isEmpty then none
  else if ds.all Char.isDigit then
    some (ds.foldl (fun acc c => acc * 10 + (c.toNat - Char.toNat '0')) 0)
  else none

/-- Python int(str): strip surrounding whitespace, allow one optional sign,
then require a nonempty run of digits; anything else raises ValueError,
modelled as none.  (Underscore digit grouping of Python 3.6+ is not used by
any input considered here and is not modelled.) -/
def pyInt (s : String) : Option Int :=
  match pyStripList s.toList with
  | '+' :: ds => (digitsToNat ds).map (fun n => (n : Int))
  | '-' :: ds => (digitsToNat ds).map (fun n => -(n : Int))
  | ds => (digitsToNat ds).map (fun n => (n : Int))

/-- ASCII model of the regex class \w: letters, digits and underscore. -/
def isWordChar (c : Char) : Bool :=
  c.isAlpha || c.isDigit || c == '_'

/-- The character class of the DOI body regex that may repeat:
[\w\-_:;\(\)/\.<>]. -/
def doiC1 (c : Char) : Bool :=
  isWordChar c || c == '-' || c == '_' || c == ':' || c == ';' ||
  c == '(' || c == ')' || c == '/' || c == '.' || c == '<' || c == '>'

/-- The character class the DOI body must end in: the same class without the
full stop, [\w\-_:;\(\)/<>]. -/
def doiC2 (c : Char) : Bool :=
  isWordChar c || c == '-' || c == '_' || c == ':' || c == ';' ||
  c == '(' || c == ')' || c == '/' || c == '<' || c == '>'

/-- Scan for the pattern piece [C1]+[C2] as a prefix of a character list,
after the first character (already known to be in C1) has been consumed:
the match succeeds as soon as a C2 character is reached while still inside
the run of C1 characters.  Characters after the match are unconstrained,
because the Python code uses re.match, which only anchors at the start. -/
def doiTailAux : List Char → Bool
  | [] => false
  | c :: r => if doiC2 c then true else if doiC1 c then doiTailAux r else false

/-- Match the suffix part of the DOI regex, [\w\-_:;\(\)/\.<>]+ followed by
one character of the same class without the full stop, as a prefix of the
input. -/
def doiTail : List Char → Bool
  | [] => false
  | c :: r => doiC1 c && doiTailAux r

/-- Match the (/|%2f) piece of the DOI regex (case-insensitive, so %2F is
also accepted) and then the suffix. -/
def doiSlash : List Char → Bool
  | '/' :: r => doiTail r
  | '%' :: '2' :: c :: r => (c == 'f' || c == 'F') && doiTail r
  | _ => false

/-- Match the mandatory DOI body 10\.\d{4}(/|%2f)suffix as a prefix of the
input. -/
def doiBody : List Char → Bool
  | '1' :: '0' :: '.' :: d1 :: d2 :: d3 :: d4 :: rest =>
    d1.isDigit && d2.isDigit && d3.isDigit && d4.isDigit && doiSlash rest
  | _ => false

/-- Strip a case-insensitive literal from the front of the input, returning
the rest on success. -/
def stripCI : List Char → List Char → Option (List Char)
  | [], l => some l
  | _ :: _, [] => none
  | p :: ps, c :: cs => if c.toLower == p.toLower then stripCI ps cs else none

/-- Match the doi-label alternative of the optional regex prefix,
\(?[Dd][Oo][Ii](\s)*\)?:?(\s)* , returning the rest of the input.  The
greedy left-to-right consumption implemented here is equivalent to the
backtracking regex because none of the optionally consumed characters
(whitespace, a closing parenthesis, a colon) can begin the mandatory body,
which starts with the digit 1. -/
def dropDoiLabel (l : List Char) : Option (List Char) :=
  let l1 := match l with
    | '(' :: t => t
    | _ => l
  match l1 with
  | c1 :: c2 :: c3 :: rest =>
    if c1.toLower == 'd' && c2.toLower == 'o' && c3.toLower == 'i' then
      let r1 := rest.dropWhile pySpace
      let r2 := match r1 with
        | ')' :: t => t
        | _ => r1
      let r3 := match r2 with
        | ':' :: t => t
        | _ => r2
      some (r3.dropWhile pySpace)
    else none
  | _ => none

/-- Match the URL alternative of the optional regex prefix,
https?://(dx\.)?doi\.org/ (case-insensitive), returning the rest of the
input. -/
def dropUrlScheme (l : List Char) : Option (List Char) :=
  match stripCI ['h', 't', 't', 'p'] l with
  | none => none
  | some l1 =>
    let l2 := match l1 with
      | 's' :: t => t
      | 'S' :: t => t
      | _ => l1
    match stripCI [':', '/', '/'] l2 with
    | none => none
    | some l3 =>
      let l4 := match stripCI ['d', 'x', '.'] l3 with
        | some t => t
        | none => l3
      match stripCI ['d', 'o', 'i', '.', 'o', 'r', 'g', '/'] l4 with
      | none => none
      | some l5 => some l5

/-- The DOI pattern check of add_doi: re.match of the verbose, ignore-case
pattern with an optional doi-label or URL prefix followed by the mandatory
body.  re.match anchors only at the start of the string, so trailing
characters are unconstrained. -/
def doiMatch (s : String) : Bool :=
  let l := s.toList
  doiBody l ||
    (match dropDoiLabel l with
     | some r => doiBody r
     | none => false) ||
    (match dropUrlScheme l with
     | some r => doiBody r
     | none => false)

/-- Python str.split on a single separator character, keeping empty pieces,
with [""] for the empty string, exactly as author_name.split(",") does. -/
def splitOnChar (sep : Char) : List Char → List (List Char)
  | [] => [[]]
  | c :: rest =>
    if c == sep then [] :: splitOnChar sep rest
    else
      match splitOnChar sep rest with
      | [] => [[c]]
      | h :: t => (c :: h) :: t

/-- The initials check of make_author: the fragment contains no character
outside uppercase letters, the full stop and the space (the source tests
re.search of the class complement and negates). -/
def verifyInitials (l : List Char) : Bool :=
  l.all (fun c => ('A' ≤ c && c ≤ 'Z') || c == '.' || c == ' ')

/-- Python str.replace of the space by the empty string: remove every
space. -/
def removeSpaces (l : List Char) : List Char :=
  l.filter (fun c => c ≠ ' ')

/-- Core of the author-name normalization of make_author on character
lists: split on every comma, remove the spaces of the second piece when it
passes the initials check, and rejoin every piece with a comma and a
space. -/
def normalizeList (l : List Char) : List Char :=
  let name := splitOnChar ',' l
  let name' := match name with
    | n0 :: n1 :: rest =>
      if verifyInitials n1 then n0 :: removeSpaces n1 :: rest
      else n0 :: n1 :: rest
    | other => other
  List.intercalate [',', ' '] name'

/-- The author-name normalization of make_author. -/
def normalizeAuthorNameWithComma (s : String) : String :=
  String.mk (normalizeList s.toList)

/-- An entry carrying a value and a source, the shape appended by
add_abstract, add_doi, add_private_notes, add_public_note and
add_report_numbers. -/
structure SourcedValue where
  value : String
  source : String
deriving DecidableEq, Repr

/-- An entry of arxiv_eprints. -/
structure ArxivEprint where
  value : String
  categories : List String
deriving DecidableEq, Repr

/-- An entry of inspire_categories. -/
structure TermSource where
  term : String
  source : String
deriving DecidableEq, Repr

/-- An entry of titles. -/
structure TitleEntry where
  title : String
  source : String
deriving DecidableEq, Repr

/-- An entry of title_translations. -/
structure TitleTranslationEntry where
  title : String
  language : String
  source : String
deriving DecidableEq, Repr

/-- An entry holding a single value, the shape appended by add_url and
add_collaboration. -/
structure ValueItem where
  value : String
deriving DecidableEq, Repr

/-- An entry of license. -/
structure UrlEntry where
  url : String
deriving DecidableEq, Repr

/-- An entry of imprints. -/
structure DateEntry where
  date : String
deriving DecidableEq, Repr

/-- An entry of accelerator_experiments. -/
structure LegacyNameEntry where
  legacy_name : String
deriving DecidableEq, Repr

/-- An institution wrapper inside thesis_info. -/
structure InstitutionEntry where
  name : String
deriving DecidableEq, Repr

/-- The thesis_info object written wholesale by add_thesis; an absent field
models an absent dict key. -/
structure ThesisInfo where
  defense_date : Option String
  degree_type : Option String
  date : Option String
  institutions : Option (List InstitutionEntry)
deriving DecidableEq, Repr

/-- The acquisition_source object written wholesale by
add_acquisition_source. -/
structure AcquisitionSource where
  submission_number : String
  source : String
  email : Option String
  method : Option String
  orcid : Option String
deriving DecidableEq, Repr

/-- One publication_info entry: the dict built by add_publication_info,
holding exactly the supplied keys plus the derived number_of_pages. -/
structure PublicationItem where
  cnum : Option String
  artid : Option String
  page_end : Option String
  page_start : Option String
  journal_issue : Option String
  journal_title : Option String
  journal_volume : Option String
  year : Option Int
  number_of_pages : Option Int
deriving DecidableEq, Repr

/-- An element of the affiliations list of an author dict.  The valueDict
constructor is the intended wrapper dict; the generator constructor is the
Python generator-expression object that make_author actually appends, since
list.append of a generator expression stores the generator object itself as
one element rather than extending the list with its items. -/
inductive AffiliationItem where
  | valueDict (value : String)
  | generator (affiliations : List String)
deriving DecidableEq, Repr

/-- The author dict produced by make_author. -/
structure Author where
  full_name : String
  affiliations : Option (List AffiliationItem)
  inspire_roles : Option (List String)
deriving DecidableEq, Repr

/-- The record dict self.obj owned by the builder.  Every field is an
Option: none models an absent key.  The preprint_date container is ensured
as an empty dict by add_preprint_date (modelled by Unit) and never holds
anything, because the subsequent append on a dict raises.  The source key
written by the builder under the name _private_notes is embedded under the
Lean name private_notes. -/
structure RecordObj where
  abstracts : Option (List SourcedValue)
  arxiv_eprints : Option (List ArxivEprint)
  dois : Option (List SourcedValue)
  authors : Option (List Author)
  inspire_categories : Option (List TermSource)
  private_notes : Option (List SourcedValue)
  publication_info : Option (List PublicationItem)
  imprints : Option (List DateEntry)
  preprint_date : Option Unit
  thesis_info : Option ThesisInfo
  accelerator_experiments : Option (List LegacyNameEntry)
  languages : Option (List String)
  license : Option (List UrlEntry)
  public_notes : Option (List SourcedValue)
  titles : Option (List TitleEntry)
  title_translations : Option (List TitleTranslationEntry)
  urls : Option (List ValueItem)
  report_numbers : Option (List SourcedValue)
  collaborations : Option (List ValueItem)
  acquisition_source : Option AcquisitionSource
  document_type : Option (List String)
  citeable : Option Bool
deriving DecidableEq, Repr

/-- The record with no keys, as built by LiteratureBuilder.__init__. -/
def emptyRecord : RecordObj :=
  { abstracts := none, arxiv_eprints := none, dois := none, authors := none,
    inspire_categories := none, private_notes := none,
    publication_info := none, imprints := none, preprint_date := none,
    thesis_info := none, accelerator_experiments := none, languages := none,
    license := none, public_notes := none, titles := none,
    title_translations := none, urls := none, report_numbers := none,
    collaborations := none, acquisition_source := none, document_type := none,
    citeable := none }

/-- The LiteratureBuilder state: the owned record and the default source. -/
structure Builder where
  obj : RecordObj
  source : String
deriving DecidableEq, Repr

/-- LiteratureBuilder.__init__. -/
def mkBuilder (source : String) : Builder :=
  { obj := emptyRecord, source := source }

/-- The helper _ensure_field: write the default value only when the key is
absent. -/
def ensureField (o : Option α) (v : α) : Option α :=
  match o with
  | none => some v
  | some x => some x

/-- The helper _get_source: an explicit per-call source overrides the
default source of the builder. -/
def getSource (b : Builder) (source : Option String) : String :=
  source.getD b.source

/-- The ensure-then-append pattern every sequence field uses:
_ensure_field(name, []) followed by self.obj[name].append(entry). -/
def appendEntry (o : Option (List α)) (e : α) : Option (List α) :=
  some ((ensureField o []).getD [] ++ [e])

/-- The ensure-then-extend pattern of add_inspire_categories and
add_report_numbers. -/
def extendEntries (o : Option (List α)) (es : List α) : Option (List α) :=
  some ((ensureField o []).getD [] ++ es)

/-- add_abstract: append the stripped value with the resolved source. -/
def addAbstract (b : Builder) (abstract : String) (source : Option String) :
    Builder :=
  { b with obj := { b.obj with
      abstracts := appendEntry b.obj.abstracts
        { value := pyStrip abstract, source := getSource b source } } }

/-- add_arxiv_eprint: append the id with its categories and set citeable
unconditionally. -/
def addArxivEprint (b : Builder) (arxiv_id : String)
    (arxiv_categories : List String) : Builder :=
  { b with obj := { b.obj with
      arxiv_eprints := appendEntry b.obj.arxiv_eprints
        { value := arxiv_id, categories := arxiv_categories },
      citeable := some true } }

/-- add_doi: ensure the dois container, then append the value and set
citeable only when the DOI pattern matches. -/
def addDoi (b : Builder) (doi : String) (source : Option String) : Builder :=
  let dois0 := ensureField b.obj.dois []
  if doiMatch doi then
    { b with obj := { b.obj with
        dois := some (dois0.getD [] ++
          [{ value := doi, source := getSource b source }]),
        citeable := some true } }
  else
    { b with obj := { b.obj with dois := dois0 } }

/-- add_author: append a pre-built author dict. -/
def addAuthor (b : Builder) (author : Author) : Builder :=
  { b with obj := { b.obj with
      authors := appendEntry b.obj.authors author } }

/-- make_author.  The Python signature is
make_author(full_name, affiliations=None, supervisor=False): the supervisor
parameter is modelled as an Option Bool whose Python default is some false,
and the role is attached whenever supervisor is not None.  The affiliations
branch mirrors the source exactly: _ensure_field("affiliations", [], author)
followed by author["affiliations"].append(generator expression), which
appends the generator object itself as a single element.  The method reads
no part of the record, so it is embedded as a plain function. -/
def makeAuthor (full_name : String) (affiliations : Option (List String))
    (supervisor : Option Bool) : Author :=
  let author0 : Author :=
    { full_name := normalizeAuthorNameWithComma full_name,
      affiliations := none, inspire_roles := none }
  let author1 := match affiliations with
    | some affs =>
      { author0 with affiliations :=
          appendEntry author0.affiliations (AffiliationItem.generator affs) }
    | none => author0
  match supervisor with
  | some _ => { author1 with inspire_roles := some ["supervisor"] }
  | none => author1

/-- add_inspire_categories: extend with one entry per term. -/
def addInspireCategories (b : Builder) (subject_terms : List String)
    (source : Option String) : Builder :=
  { b with obj := { b.obj with
      inspire_categories := extendEntries b.obj.inspire_categories
        (subject_terms.map (fun category =>
          { term := category, source := getSource b source })) } }

/-- add_private_notes: append the value with the resolved source. -/
def addPrivateNotes (b : Builder) (private_notes : String)
    (source : Option String) : Builder :=
  { b with obj := { b.obj with
      private_notes := appendEntry b.obj.private_notes
        { value := private_notes, source := getSource b source } } }

/-- Python truthiness of an optional string argument: None and the empty
string are falsy. -/
def pyTruthy (o : Option String) : Bool :=
  match o with
  | none => false
  | some s => !s.isEmpty

/-- The derived number_of_pages of add_publication_info: computed only when
both page bounds are truthy, as int(page_end) - int(page_start) + 1, and
silently omitted when int raises on either bound. -/
def numberOfPages (page_start page_end : Option String) : Option Int :=
  if pyTruthy page_start && pyTruthy page_end then
    match page_end, page_start with
    | some pe, some ps =>
      match pyInt pe, pyInt ps with
      | some e, some s => some (e - s + 1)
      | _, _ => none
    | _, _ => none
  else none

/-- The publication_info entry built by add_publication_info: exactly the
supplied keys, plus the derived number_of_pages. -/
def mkPublicationItem (year : Option Int)
    (cnum artid page_end page_start journal_issue journal_title
      journal_volume : Option String) : PublicationItem :=
  { cnum := cnum, artid := artid, page_end := page_end,
    page_start := page_start, journal_issue := journal_issue,
    journal_title := journal_title, journal_volume := journal_volume,
    year := year,
    number_of_pages := numberOfPages page_start page_end }

/-- Python equality between a publication_info entry (a dict) and a string:
a dict never compares equal to a string, so this is constantly false.  It is
the elementwise comparison performed by the membership tests
key in self.obj["publication_info"] of the source, where the right-hand side
is the list of entry dicts. -/
def pubItemEqStr (_ : PublicationItem) (_ : String) : Bool :=
  false

/-- The membership test key in self.obj["publication_info"] of the source:
the string key is compared against each element of the list of entries. -/
def pubListContains (l : List PublicationItem) (key : String) : Bool :=
  l.any (fun item => pubItemEqStr item key)

/-- add_publication_info: build the entry from the supplied keys, derive
number_of_pages, append, then recompute citeable from the membership tests
over the accumulated list of entries. -/
def addPublicationInfo (b : Builder) (year : Option Int)
    (cnum artid page_end page_start journal_issue journal_title
      journal_volume : Option String) : Builder :=
  let item := mkPublicationItem year cnum artid page_end page_start
    journal_issue journal_title journal_volume
  let pubs := (ensureField b.obj.publication_info []).getD [] ++ [item]
  let has_pub_info :=
    ["year", "journal_issue", "journal_volume"].all
      (fun key => pubListContains pubs key)
  let has_page_or_artid :=
    ["page_start", "page_end", "artid"].any
      (fun key => pubListContains pubs key)
  { b with obj := { b.obj with
      publication_info := some pubs,
      citeable :=
        if has_pub_info && has_page_or_artid then some true
        else b.obj.citeable } }

/-- add_imprint_date: append the date wrapper. -/
def addImprintDate (b : Builder) (imprint_date : String) : Builder :=
  { b with obj := { b.obj with
      imprints := appendEntry b.obj.imprints { date := imprint_date } } }

/-- Outcome of a builder call that can raise: the carried builder is the
state of the object when the call returns or when the exception
propagates. -/
inductive PyResult where
  | ok (b : Builder)
  | attributeError (b : Builder)
deriving DecidableEq, Repr

/-- Whether the call raised. -/
def PyResult.raised : PyResult → Bool
  | .ok _ => false
  | .attributeError _ => true

/-- The builder state carried by the outcome. -/
def PyResult.state : PyResult → Builder
  | .ok b => b
  | .attributeError b => b

/-- add_preprint_date: the source ensures the preprint_date key with an
empty dict and then calls .append on it; a Python dict has no append
attribute, so the call raises AttributeError unconditionally, after the
ensure write has already mutated the record. -/
def addPreprintDate (b : Builder) (_preprint_date : String) : PyResult :=
  let b1 : Builder := { b with obj := { b.obj with
    preprint_date := ensureField b.obj.preprint_date () } }
  .attributeError b1

/-- Python str.lower, modelled on ASCII letters. -/
def pyLower (s : String) : String :=
  String.mk (s.toList.map Char.toLower)

/-- add_thesis: ensure the thesis_info key, then overwrite it wholesale with
the object built from the lowercased supplied values. -/
def addThesis (b : Builder)
    (defense_date degree_type institution date : Option String) : Builder :=
  { b with obj := { b.obj with
      thesis_info := some
        { defense_date := defense_date.map pyLower,
          degree_type := degree_type.map pyLower,
          date := date.map pyLower,
          institutions := institution.map (fun i => [{ name := i }]) } } }

/-- add_accelerator_experiment: append the legacy-name wrapper. -/
def addAcceleratorExperiment (b : Builder) (experiment : String) : Builder :=
  { b with obj := { b.obj with
      accelerator_experiments := appendEntry b.obj.accelerator_experiments
        { legacy_name := experiment } } }

/-- add_language: append the language string itself. -/
def addLanguage (b : Builder) (language : String) : Builder :=
  { b with obj := { b.obj with
      languages := appendEntry b.obj.languages language } }

/-- add_license_url: append the url wrapper. -/
def addLicenseUrl (b : Builder) (license_url : String) : Builder :=
  { b with obj := { b.obj with
      license := appendEntry b.obj.license { url := license_url } } }

/-- add_public_note: append the value with the resolved source. -/
def addPublicNote (b : Builder) (public_notes : String)
    (source : Option String) : Builder :=
  { b with obj := { b.obj with
      public_notes := appendEntry b.obj.public_notes
        { value := public_notes, source := getSource b source } } }

/-- add_title: append the title with the resolved source. -/
def addTitle (b : Builder) (title : String) (source : Option String) :
    Builder :=
  { b with obj := { b.obj with
      titles := appendEntry b.obj.titles
        { title := title, source := getSource b source } } }

/-- add_title_translation: append the translated title with its language and
the resolved source. -/
def addTitleTranslation (b : Builder) (title : String) (language : String)
    (source : Option String) : Builder :=
  { b with obj := { b.obj with
      title_translations := appendEntry b.obj.title_translations
        { title := title, language := language,
          source := getSource b source } } }

/-- add_url: append the value wrapper. -/
def addUrl (b : Builder) (url : String) : Builder :=
  { b with obj := { b.obj with
      urls := appendEntry b.obj.urls { value := url } } }

/-- add_report_numbers: each input dict contributes its report_number value,
defaulting to the empty string via dict.get, with the resolved source. -/
def addReportNumbers (b : Builder) (report_numbers : List (Option String))
    (source : Option String) : Builder :=
  { b with obj := { b.obj with
      report_numbers := extendEntries b.obj.report_numbers
        (report_numbers.map (fun report_number =>
          { value := report_number.getD "", source := getSource b source })) } }

/-- add_collaboration: append the value wrapper. -/
def addCollaboration (b : Builder) (collaboration : String) : Builder :=
  { b with obj := { b.obj with
      collaborations := appendEntry b.obj.collaborations
        { value := collaboration } } }

/-- add_acquisition_source: overwrite the acquisition_source object
wholesale; submission_number is stringified. -/
def addAcquisitionSource (b : Builder) (submission_number : Int)
    (email source method orcid : Option String) : Builder :=
  { b with obj := { b.obj with
      acquisition_source := some
        { submission_number := toString submission_number,
          source := getSource b source,
          email := email, method := method, orcid := orcid } } }

/-- add_document_type: append the document type string itself. -/
def addDocumentType (b : Builder) (document_type : String) : Builder :=
  { b with obj := { b.obj with
      document_type := appendEntry b.obj.document_type document_type } }

/-- One public builder call, for quantifying over arbitrary call
sequences. -/
inductive Call where
  | abstract (a : String) (src : Option String)
  | arxiv (id : String) (cats : List String)
  | doi (d : String) (src : Option String)
  | author (a : Author)
  | inspireCategories (terms : List String) (src : Option String)
  | privateNotes (n : String) (src : Option String)
  | publicationInfo (year : Option Int)
      (cnum artid page_end page_start journal_issue journal_title
        journal_volume : Option String)
  | imprintDate (d : String)
  | preprintDate (d : String)
  | thesis (defense_date degree_type institution date : Option String)
  | acceleratorExperiment (e : String)
  | language (l : String)
  | licenseUrl (u : String)
  | publicNote (n : String) (src : Option String)
  | title (t : String) (src : Option String)
  | titleTranslation (t : String) (l : String) (src : Option String)
  | url (u : String)
  | reportNumbers (rs : List (Option String)) (src : Option String)
  | collaboration (c : String)
  | acquisitionSource (sn : Int) (email src method orcid : Option String)
  | documentType (d : String)

/-- The builder state after one call returns or raises (for
add_preprint_date the state when the AttributeError propagates). -/
def step (b : Builder) : Call → Builder
  | .abstract a src => addAbstract b a src
  | .arxiv id cats => addArxivEprint b id cats
  | .doi d src => addDoi b d src
  | .author a => addAuthor b a
  | .inspireCategories terms src => addInspireCategories b terms src
  | .privateNotes n src => addPrivateNotes b n src
  | .publicationInfo y c a pe ps ji jt jv =>
    addPublicationInfo b y c a pe ps ji jt jv
  | .imprintDate d => addImprintDate b d
  | .preprintDate d => (addPreprintDate b d).state
  | .thesis dd dt i d => addThesis b dd dt i d
  | .acceleratorExperiment e => addAcceleratorExperiment b e
  | .language l => addLanguage b l
  | .licenseUrl u => addLicenseUrl b u
  | .publicNote n src => addPublicNote b n src
  | .title t src => addTitle b t src
  | .titleTranslation t l src => addTitleTranslation b t l src
  | .url u => addUrl b u
  | .reportNumbers rs src => addReportNumbers b rs src
  | .collaboration c => addCollaboration b c
  | .acquisitionSource sn e src m o => addAcquisitionSource b sn e src m o
  | .documentType d => addDocumentType b d

/-- The entries of the dois field, reading an absent key as the empty
sequence. -/
def doisEntries (r : RecordObj) : List SourcedValue :=
  r.dois.getD []

/-- The most recently appended publication_info entry. -/
def lastPubItem (b : Builder) : Option PublicationItem :=
  (b.obj.publication_info.getD []).getLast?

/-! Helper lemmas about the embedded operations. -/

theorem ensureField_eq (o : Option α) (v : α) :
    ensureField o v = some (o.getD v) := by
  cases o <;> rfl

theorem ensureField_getD (o : Option (List α)) :
    (ensureField o []).getD [] = o.getD [] := by
  cases o <;> rfl

@[simp]
theorem appendEntry_eq (o : Option (List α)) (e : α) :
    appendEntry o e = some (o.getD [] ++ [e]) := by
  cases o <;> rfl

@[simp]
theorem extendEntries_eq (o : Option (List α)) (es : List α) :
    extendEntries o es = some (o.getD [] ++ es) := by
  cases o <;> rfl

@[simp]
theorem pubListContains_false (l : List PublicationItem) (key : String) :
    pubListContains l key = false := by
  simp [pubListContains, pubItemEqStr]

theorem pyInt_ne_empty (s : String) (a : Int) (h : pyInt s = some a) :
    s.isEmpty = false := by
  cases hs : s.isEmpty
  · rfl
  · have hs' : s = "" := (String.isEmpty_iff s).mp hs
    subst hs'
    rw [show pyInt "" = none from rfl] at h
    cases h

theorem numberOfPages_both (ps pe : String) (s e : Int)
    (hs : pyInt ps = some s) (he : pyInt pe = some e) :
    numberOfPages (some ps) (some pe) = some (e - s + 1) := by
  have hs' := pyInt_ne_empty ps s hs
  have he' := pyInt_ne_empty pe e he
  simp [numberOfPages, pyTruthy, hs', he', hs, he]

theorem numberOfPages_fail (ps pe : String)
    (h : pyInt ps = none ∨ pyInt pe = none) :
    numberOfPages (some ps) (some pe) = none := by
  unfold numberOfPages
  split
  · rcases h with h | h <;> cases hpe : pyInt pe <;> cases hps : pyInt ps <;>
      simp_all
  · rfl

theorem splitOnChar_of_not_mem (sep : Char) (l : List Char) (h : sep ∉ l) :
    splitOnChar sep l = [l] := by
  induction l with
  | nil => rfl
  | cons c t ih =>
    have hc : ¬(c == sep) = true := by
      simp only [beq_iff_eq]
      intro hcc
      exact h (hcc ▸ List.mem_cons_self c t)
    have ht : sep ∉ t := fun hm => h (List.mem_cons_of_mem c hm)
    simp only [splitOnChar, if_neg hc, ih ht]

theorem splitOnChar_append (sep : Char) (a b : List Char) (ha : sep ∉ a) :
    splitOnChar sep (a ++ sep :: b) = a :: splitOnChar sep b := by
  induction a with
  | nil => simp [splitOnChar]
  | cons c t ih =>
    have hc : ¬(c == sep) = true := by
      simp only [beq_iff_eq]
      intro hcc
      exact ha (hcc ▸ List.mem_cons_self c t)
    have ht : sep ∉ t := fun hm => ha (List.mem_cons_of_mem c hm)
    simp only [List.cons_append, splitOnChar, if_neg hc, List.append_eq, ih ht]

theorem intercalate_pair (sep x y : List Char) :
    List.intercalate sep [x, y] = x ++ sep ++ y := by
  simp [List.intercalate, List.intersperse]

theorem addAbstract_foldl (b : Builder) (l : List (String × Option String)) :
    ((l.foldl (fun acc p => addAbstract acc p.1 p.2) b).obj.abstracts).getD []
      = b.obj.abstracts.getD [] ++
        l.map (fun p => { value := pyStrip p.1, source := getSource b p.2 }) := by
  induction l generalizing b with
  | nil => simp
  | cons p t ih =>
    simp only [List.foldl_cons, List.map_cons, ih (addAbstract b p.1 p.2)]
    simp [addAbstract, getSource]

/-! Claim theorems. -/

/-- Claim C1: the spec says that after an add_publication_info call whose
accumulated publication_info sequence has year, journal_issue and
journal_volume all present and one of page_start, page_end, artid present,
the record has citeable set to true.  The code never sets citeable there:
its presence tests ask whether the key string is an element of the list of
entry dicts, and a dict never equals a string, so both tests are constantly
false.  The first conjunct evaluates the code at a failing input satisfying
every presence condition of the claim; the second shows citeable is left
unchanged by every add_publication_info call. -/
theorem claim1_publication_info_never_sets_citeable :
    (addPublicationInfo (mkBuilder "submitter") (some 2017) none (some "100")
      none none (some "1") none (some "2")).obj.citeable = none
    ∧ ∀ (b : Builder) (year : Option Int)
        (cnum artid page_end page_start journal_issue journal_title
          journal_volume : Option String),
        (addPublicationInfo b year cnum artid page_end page_start
          journal_issue journal_title journal_volume).obj.citeable =
          b.obj.citeable := by
  constructor
  · rfl
  · intro b year cnum artid pe ps ji jt jv
    simp [addPublicationInfo]

/-- Claim C2 counterexample: the Python default of the supervisor parameter
is False, not the absent sentinel None, and the source attaches the role
whenever supervisor is not None; hence a call that does not supply
supervisor at all still gets an inspire_roles key, contradicting the
claim. -/
theorem claim2_counterexample :
    (makeAuthor "Smith, John" none (some false)).inspire_roles =
      some ["supervisor"]
    ∧ (makeAuthor "Smith, John" none (some false)).inspire_roles ≠ none := by
  constructor
  · rfl
  · intro h
    cases h

/-- Claim C2 as amended: make_author attaches inspire_roles equal to
["supervisor"] exactly when the supervisor argument is anything other than
None (so supervisor equal to False and to True both attach the role); since
the Python default is False rather than None, a call that does not supply
supervisor also attaches the role, and only an explicit supervisor equal to
None yields an author dict with no inspire_roles key. -/
theorem claim2_supervisor_role (full_name : String)
    (affiliations : Option (List String)) :
    (makeAuthor full_name affiliations none).inspire_roles = none
    ∧ ∀ (sv : Bool),
        (makeAuthor full_name affiliations (some sv)).inspire_roles =
          some ["supervisor"] := by
  constructor
  · cases affiliations <;> rfl
  · intro sv
    cases affiliations <;> rfl

/-- Claim C3 counterexample: the normalization removes spaces but inserts no
periods, so make_author of "Smith, J K" yields "Smith, JK" rather than
"Smith, J.K."; and the rejoin with a comma and a space keeps the leading
space of a non-initials rest, so make_author of "Smith, John" yields
"Smith,  John" (two spaces) rather than the unchanged "Smith, John". -/
theorem claim3_counterexample :
    ((makeAuthor "Smith, J K" none (some true)).full_name = "Smith, JK"
      ∧ "Smith, JK" ≠ "Smith, J.K.")
    ∧ (makeAuthor "Smith, John" none (some false)).full_name = "Smith,  John"
    ∧ "Smith,  John" ≠ "Smith, John" := by
  refine ⟨⟨?_, by decide⟩, ?_, by decide⟩ <;> rfl

/-- Claim C3 as amended: make_author splits the full name on every comma;
when the piece right after the first comma qualifies as initials (only
uppercase letters, periods and spaces), all spaces are removed from that
piece, and the pieces are rejoined with a comma and a space (so the leading
space of a non-initials rest is kept after the inserted space); in
particular make_author of "Smith, J K" with supervisor true returns
full_name "Smith, JK" with the supervisor role, and make_author of
"Smith, John" returns full_name "Smith,  John". -/
theorem claim3_name_normalization (s1 s2 : List Char)
    (h1 : ',' ∉ s1) (h2 : ',' ∉ s2) :
    normalizeList (s1 ++ ',' :: s2) =
      s1 ++ ',' :: ' ' ::
        (if verifyInitials s2 then removeSpaces s2 else s2)
    ∧ (makeAuthor "Smith, J K" none (some true)).full_name = "Smith, JK"
    ∧ (makeAuthor "Smith, J K" none (some true)).inspire_roles =
        some ["supervisor"]
    ∧ (makeAuthor "Smith, John" none (some false)).full_name =
        "Smith,  John" := by
  refine ⟨?_, rfl, rfl, rfl⟩
  unfold normalizeList
  rw [splitOnChar_append ',' s1 s2 h1, splitOnChar_of_not_mem ',' s2 h2]
  by_cases hv : verifyInitials s2
  · simp [hv, intercalate_pair]
  · simp [hv, intercalate_pair]

/-- Claim C3 witness: the amended statement applied at the concrete split of
"Smith, J K". -/
theorem claim3_witness :
    normalizeList ("Smith".toList ++ ',' :: " J K".toList) =
      "Smith".toList ++ ',' :: ' ' ::
        (if verifyInitials " J K".toList then removeSpaces " J K".toList
         else " J K".toList)
    ∧ (makeAuthor "Smith, J K" none (some true)).full_name = "Smith, JK"
    ∧ (makeAuthor "Smith, J K" none (some true)).inspire_roles =
        some ["supervisor"]
    ∧ (makeAuthor "Smith, John" none (some false)).full_name =
        "Smith,  John" :=
  claim3_name_normalization "Smith".toList " J K".toList
    (by decide) (by decide)

/-- Claim C4: the spec says make_author attaches one wrapper dict per
affiliation, so two affiliations should give two entries.  The code calls
list.append with a generator expression, so the single appended element is
the generator object itself: the affiliations list has length one and is
not the claimed list of wrapper dicts, for any nonempty affiliations
input. -/
theorem claim4_affiliations_generator :
    (makeAuthor "Smith, John" (some ["CERN", "MIT"])
        (some false)).affiliations =
      some [AffiliationItem.generator ["CERN", "MIT"]]
    ∧ ((makeAuthor "Smith, John" (some ["CERN", "MIT"])
        (some false)).affiliations.getD []).length = 1
    ∧ (makeAuthor "Smith, John" (some ["CERN", "MIT"])
        (some false)).affiliations ≠
      some [AffiliationItem.valueDict "CERN", AffiliationItem.valueDict "MIT"]
    ∧ ∀ (full_name : String) (affs : List String) (sv : Option Bool),
        (makeAuthor full_name (some affs) sv).affiliations =
          some [AffiliationItem.generator affs] := by
  refine ⟨rfl, rfl, by decide, ?_⟩
  intro full_name affs sv
  cases sv <;> rfl

/-- Claim C5: the spec says add_preprint_date appends the date wrapper and
returns normally, and that no add method raises.  The code ensures the
preprint_date key with an empty dict and then calls .append on that dict,
which raises AttributeError on every call. -/
theorem claim5_preprint_date_always_raises :
    (addPreprintDate (mkBuilder "submitter") "2016-01-01").raised = true
    ∧ ∀ (b : Builder) (d : String), (addPreprintDate b d).raised = true :=
  ⟨rfl, fun _ _ => rfl⟩

/-- Claim C6: a string matching the embedded DOI pattern makes add_doi
append exactly one value-source entry and set citeable to true; a string
not matching it leaves the entries of dois and the citeable flag
unchanged. -/
theorem claim6_add_doi (b : Builder) (doi : String) (source : Option String) :
    (doiMatch doi = true →
      doisEntries (addDoi b doi source).obj =
        doisEntries b.obj ++ [{ value := doi, source := getSource b source }]
      ∧ (addDoi b doi source).obj.citeable = some true)
    ∧ (doiMatch doi = false →
      doisEntries (addDoi b doi source).obj = doisEntries b.obj
      ∧ (addDoi b doi source).obj.citeable = b.obj.citeable) := by
  constructor
  · intro h
    constructor
    · simp [addDoi, h, doisEntries, ensureField_getD]
    · simp [addDoi, h]
  · intro h
    constructor
    · simp [addDoi, h, doisEntries, ensureField_eq]
    · simp [addDoi, h]

/-- Claim C6 witness: a well-formed DOI is appended and sets citeable, and
the non-matching string "not-a-doi" leaves entries and flag unchanged. -/
theorem claim6_witness :
    (doisEntries (addDoi (mkBuilder "submitter") "10.1234/foo" none).obj =
        doisEntries (mkBuilder "submitter").obj ++
          [{ value := "10.1234/foo",
             source := getSource (mkBuilder "submitter") none }]
      ∧ (addDoi (mkBuilder "submitter") "10.1234/foo" none).obj.citeable =
          some true)
    ∧ (doisEntries (addDoi (mkBuilder "submitter") "not-a-doi" none).obj =
        doisEntries (mkBuilder "submitter").obj
      ∧ (addDoi (mkBuilder "submitter") "not-a-doi" none).obj.citeable =
          (mkBuilder "submitter").obj.citeable) :=
  ⟨(claim6_add_doi (mkBuilder "submitter") "10.1234/foo" none).1 (by rfl),
   (claim6_add_doi (mkBuilder "submitter") "not-a-doi" none).2 (by rfl)⟩

/-- Claim C7: the entry appended by add_publication_info carries
number_of_pages equal to int(page_end) - int(page_start) + 1 when both
bounds parse as integers, and no number_of_pages key when either supplied
bound does not parse. -/
theorem claim7_number_of_pages (b : Builder) (year : Option Int)
    (cnum artid journal_issue journal_title journal_volume : Option String)
    (ps pe : String) :
    lastPubItem (addPublicationInfo b year cnum artid (some pe) (some ps)
        journal_issue journal_title journal_volume) =
      some (mkPublicationItem year cnum artid (some pe) (some ps)
        journal_issue journal_title journal_volume)
    ∧ (∀ (s e : Int), pyInt ps = some s → pyInt pe = some e →
        (mkPublicationItem year cnum artid (some pe) (some ps)
          journal_issue journal_title journal_volume).number_of_pages =
          some (e - s + 1))
    ∧ ((pyInt ps = none ∨ pyInt pe = none) →
        (mkPublicationItem year cnum artid (some pe) (some ps)
          journal_issue journal_title journal_volume).number_of_pages =
          none) := by
  refine ⟨?_, ?_, ?_⟩
  · simp [addPublicationInfo, lastPubItem]
  · intro s e hs he
    simp [mkPublicationItem, numberOfPages_both ps pe s e hs he]
  · intro h
    simp [mkPublicationItem, numberOfPages_fail ps pe h]

/-- Claim C7 witness: page bounds 1 and 10 give ten pages; a non-numeric
bound omits the key. -/
theorem claim7_witness :
    lastPubItem (addPublicationInfo (mkBuilder "submitter") none none none
        (some "10") (some "1") none none none) =
      some (mkPublicationItem none none none (some "10") (some "1")
        none none none)
    ∧ (mkPublicationItem none none none (some "10") (some "1")
        none none none).number_of_pages = some 10
    ∧ (mkPublicationItem none none none (some "10") (some "x")
        none none none).number_of_pages = none := by
  have h1 := claim7_number_of_pages (mkBuilder "submitter") none none none
    none none none "1" "10"
  have h2 := claim7_number_of_pages (mkBuilder "submitter") none none none
    none none none "x" "10"
  exact ⟨h1.1, h1.2.1 1 10 (by rfl) (by rfl), h2.2.2 (Or.inl (by rfl))⟩

/-- Claim C8: every sequence field is ensured empty once and only appended
to afterwards.  Each conjunct characterizes the effect of one add method on
its own container as appending the entries of that call after all earlier
entries; the first conjunct gives the N-call form for add_abstract: folding
any list of calls yields exactly the concatenation, in call order, of the
contributed entries. -/
theorem claim8_containers_append :
    (∀ (b : Builder) (l : List (String × Option String)),
      ((l.foldl (fun acc p => addAbstract acc p.1 p.2) b).obj.abstracts).getD []
        = b.obj.abstracts.getD [] ++
          l.map (fun p => { value := pyStrip p.1, source := getSource b p.2 }))
    ∧ (∀ (b : Builder) (a : String) (s : Option String),
        (addAbstract b a s).obj.abstracts =
          some (b.obj.abstracts.getD [] ++
            [{ value := pyStrip a, source := getSource b s }]))
    ∧ (∀ (b : Builder) (id : String) (cats : List String),
        (addArxivEprint b id cats).obj.arxiv_eprints =
          some (b.obj.arxiv_eprints.getD [] ++
            [{ value := id, categories := cats }]))
    ∧ (∀ (b : Builder) (d : String) (s : Option String),
        (addDoi b d s).obj.dois =
          some (b.obj.dois.getD [] ++
            (if doiMatch d then [{ value := d, source := getSource b s }]
             else [])))
    ∧ (∀ (b : Builder) (a : Author),
        (addAuthor b a).obj.authors = some (b.obj.authors.getD [] ++ [a]))
    ∧ (∀ (b : Builder) (terms : List String) (s : Option String),
        (addInspireCategories b terms s).obj.inspire_categories =
          some (b.obj.inspire_categories.getD [] ++
            terms.map (fun t => { term := t, source := getSource b s })))
    ∧ (∀ (b : Builder) (n : String) (s : Option String),
        (addPrivateNotes b n s).obj.private_notes =
          some (b.obj.private_notes.getD [] ++
            [{ value := n, source := getSource b s }]))
    ∧ (∀ (b : Builder) (year : Option Int)
        (cnum artid pe ps ji jt jv : Option String),
        (addPublicationInfo b year cnum artid pe ps ji jt jv).obj.publication_info
          = some (b.obj.publication_info.getD [] ++
              [mkPublicationItem year cnum artid pe ps ji jt jv]))
    ∧ (∀ (b : Builder) (d : String),
        (addImprintDate b d).obj.imprints =
          some (b.obj.imprints.getD [] ++ [{ date := d }]))
    ∧ (∀ (b : Builder) (e : String),
        (addAcceleratorExperiment b e).obj.accelerator_experiments =
          some (b.obj.accelerator_experiments.getD [] ++
            [{ legacy_name := e }]))
    ∧ (∀ (b : Builder) (l : String),
        (addLanguage b l).obj.languages =
          some (b.obj.languages.getD [] ++ [l]))
    ∧ (∀ (b : Builder) (u : String),
        (addLicenseUrl b u).obj.license =
          some (b.obj.license.getD [] ++ [{ url := u }]))
    ∧ (∀ (b : Builder) (n : String) (s : Option String),
        (addPublicNote b n s).obj.public_notes =
          some (b.obj.public_notes.getD [] ++
            [{ value := n, source := getSource b s }]))
    ∧ (∀ (b : Builder) (t : String) (s : Option String),
        (addTitle b t s).obj.titles =
          some (b.obj.titles.getD [] ++
            [{ title := t, source := getSource b s }]))
    ∧ (∀ (b : Builder) (t l : String) (s : Option String),
        (addTitleTranslation b t l s).obj.title_translations =
          some (b.obj.title_translations.getD [] ++
            [{ title := t, language := l, source := getSource b s }]))
    ∧ (∀ (b : Builder) (u : String),
        (addUrl b u).obj.urls = some (b.obj.urls.getD [] ++ [{ value := u }]))
    ∧ (∀ (b : Builder) (rs : List (Option String)) (s : Option String),
        (addReportNumbers b rs s).obj.report_numbers =
          some (b.obj.report_numbers.getD [] ++
            rs.map (fun r => { value := r.getD "", source := getSource b s })))
    ∧ (∀ (b : Builder) (c : String),
        (addCollaboration b c).obj.collaborations =
          some (b.obj.collaborations.getD [] ++ [{ value := c }]))
    ∧ (∀ (b : Builder) (d : String),
        (addDocumentType b d).obj.document_type =
          some (b.obj.document_type.getD [] ++ [d])) := by
  refine ⟨addAbstract_foldl, ?_, ?_, ?_, ?_, ?_, ?_, ?_, ?_, ?_, ?_, ?_, ?_,
    ?_, ?_, ?_, ?_, ?_, ?_⟩
  · intro b a s
    simp [addAbstract]
  · intro b id cats
    simp [addArxivEprint]
  · intro b d s
    by_cases h : doiMatch d
    · simp [addDoi, h, ensureField_getD]
    · simp [addDoi, h, ensureField_eq]
  · intro b a
    simp [addAuthor]
  · intro b terms s
    simp [addInspireCategories]
  · intro b n s
    simp [addPrivateNotes]
  · intro b year cnum artid pe ps ji jt jv
    simp [addPublicationInfo, ensureField_getD]
  · intro b d
    simp [addImprintDate]
  · intro b e
    simp [addAcceleratorExperiment]
  · intro b l
    simp [addLanguage]
  · intro b u
    simp [addLicenseUrl]
  · intro b n s
    simp [addPublicNote]
  · intro b t s
    simp [addTitle]
  · intro b t l s
    simp [addTitleTranslation]
  · intro b u
    simp [addUrl]
  · intro b rs s
    simp [addReportNumbers]
  · intro b c
    simp [addCollaboration]
  · intro b d
    simp [addDocumentType]

/-- Claim C9: once citeable is true it stays true: no builder call ever
writes anything but true to it or removes it.  The step function covers
every public mutating method, with add_preprint_date contributing the
record state at the point its AttributeError propagates; make_author reads
and writes no record field at all (it is embedded without a builder
argument), so it cannot affect citeable. -/
theorem claim9_citeable_monotone (b : Builder) (c : Call)
    (h : b.obj.citeable = some true) :
    (step b c).obj.citeable = some true := by
  cases c with
  | doi d src =>
    by_cases hd : doiMatch d
    · simp [step, addDoi, hd]
    · simp [step, addDoi, hd, h]
  | publicationInfo y cn a pe ps ji jt jv =>
    simp only [step, addPublicationInfo]
    split <;> simp [h]
  | preprintDate d =>
    simp [step, addPreprintDate, PyResult.state, h]
  | _ =>
    simp [step, addAbstract, addArxivEprint, addAuthor, addInspireCategories,
      addPrivateNotes, addImprintDate, addThesis, addAcceleratorExperiment,
      addLanguage, addLicenseUrl, addPublicNote, addTitle,
      addTitleTranslation, addUrl, addReportNumbers, addCollaboration,
      addAcquisitionSource, addDocumentType, h]

/-- Claim C9 witness: after an arXiv e-print has set citeable, a later
add_title call keeps it true. -/
theorem claim9_witness :
    (step (addArxivEprint (mkBuilder "submitter") "1234.5678" ["hep-th"])
      (Call.title "A title" none)).obj.citeable = some true :=
  claim9_citeable_monotone
    (addArxivEprint (mkBuilder "submitter") "1234.5678" ["hep-th"])
    (Call.title "A title" none) rfl

/-- Claim C10: a rejected add_doi call still runs the ensure step: when the
record has no dois key the call leaves the builder identical except that
dois is now bound to the empty list, and when the key already exists the
builder is completely unchanged. -/
theorem claim10_rejected_doi_frame (b : Builder) (doi : String)
    (source : Option String) (h : doiMatch doi = false) :
    (b.obj.dois = none →
      addDoi b doi source =
        { b with obj := { b.obj with dois := some [] } })
    ∧ ∀ (l : List SourcedValue), b.obj.dois = some l →
        addDoi b doi source = b := by
  constructor
  · intro h0
    simp [addDoi, h, h0, ensureField]
  · intro l hl
    simp only [addDoi, h, Bool.false_eq_true, if_false, hl, ensureField]
    rw [← hl]

/-- Claim C10 witness: on a fresh builder the rejected call creates the
empty dois container; on a builder whose dois key exists the rejected call
is the identity. -/
theorem claim10_witness :
    addDoi (mkBuilder "submitter") "not-a-doi" none =
      { mkBuilder "submitter" with obj :=
          { (mkBuilder "submitter").obj with dois := some [] } }
    ∧ addDoi (addDoi (mkBuilder "submitter") "10.1234/foo" none)
        "not-a-doi" none =
      addDoi (mkBuilder "submitter") "10.1234/foo" none :=
  ⟨(claim10_rejected_doi_frame (mkBuilder "submitter") "not-a-doi" none
      (by rfl)).1 rfl,
   (claim10_rejected_doi_frame
      (addDoi (mkBuilder "submitter") "10.1234/foo" none) "not-a-doi" none
      (by rfl)).2
    [{ value := "10.1234/foo", source := "submitter" }] (by rfl)⟩

end InspireSchemas
